import Mathlib

/-!
Verification of the `List` component in `src/app/src/ui/lib/list/list.tsx`.

The TypeScript class `List` (a virtualized list widget) is shallowly embedded
here under the namespace `VirtualList` (the name `List` itself is taken by
Lean's list type).  Props, component state and instance fields become record
types; each method becomes a function from the instance to a pair of the
updated instance and the list of externally observable effects (callback
invocations, DOM writes, resource releases) it performs, in order.

JavaScript numbers that are used as row indices and sizes are modelled as
`Int` (indices can be negative, e.g. `selectedRow = -1`) or `Nat` (counts).
The JavaScript remainder operator `%`, whose result takes the sign of the
dividend, is modelled by `jsMod`.
-/

namespace VirtualList

/-- Direction argument of `nextSelectableRow` and `moveSelection`:
the string union type `'up' | 'down'`. -/
inductive Direction
  | up
  | down
deriving DecidableEq, Repr

/-- Kind tag of a `SelectionSource` (`mouseclick`, `hover` or `keyboard`). -/
inductive SourceKind
  | mouseclick
  | hover
  | keyboard
deriving DecidableEq, Repr

/-- Which scroll container moved last: the instance field
`lastScroll: 'grid' | 'fake' | null` (modelled below as `Option ScrollSide`). -/
inductive ScrollSide
  | grid
  | fake
deriving DecidableEq, Repr

/-- The `rowHeight` prop: `number | ((info: { index: number }) => number)`. -/
inductive RowHeight
  | fixed (h : Int)
  | perRow (f : Nat → Int)

/-- Modelled from the spec: the type of the `invalidationProps` prop.  The
source passes it to `shallowEquals` (imported from `lib/equality`, a file not
under `src/`); per the spec it is a "set of invalidation properties" compared
key by key, so we model it as an association list of key/value identifiers. -/
def InvProps : Type := List (Nat × Nat)

/-- Modelled from the spec: `shallowEquals` from `lib/equality` is not under
`src/`.  Per the spec it decides whether two values are "shallow-equal": they
hold exactly the same keys and, for each key, (reference-)equal values. -/
def shallowEquals (a b : InvProps) : Bool :=
  a.all (fun kv => b.lookup kv.fst == some kv.snd) &&
    b.all (fun kv => a.lookup kv.fst == some kv.snd)

/-- The props of the `List` component (`IListProps`).  Optional callback props
are modelled by `has...` booleans recording whether the caller supplied them;
the optional `canSelectRow` predicate keeps its functional payload. -/
structure ListProps where
  rowCount : Nat
  rowHeight : RowHeight := RowHeight.fixed 0
  selectedRow : Int := -1
  canSelectRow : Option (Int → Bool) := none
  selectOnHover : Bool := false
  /-- Prop `focusOnHover?: boolean`: `none` models `undefined`.  The source only
  ever compares it against `false` (`this.props.focusOnHover !== false`). -/
  focusOnHover : Option Bool := none
  hasOnSelectionChanged : Bool := false
  hasOnRowMouseDown : Bool := false
  hasOnRowClick : Bool := false
  hasOnScroll : Bool := false
  scrollToRow : Option Int := none
  invalidationProps : InvProps := []

/-- The React state of the component (`IListState`): sizes from the resize
observer and the unique row-id token (the string returned by
`createUniqueId`, modelled as an abstract numeric token). -/
structure ListState where
  width : Option Nat := none
  height : Option Nat := none
  rowIdToken : Option Nat := none

/-- An instance of the component: props, state and the private instance
fields.  DOM/component references (`focusItem`, `fakeScroll`, `list`, `grid`)
are modelled by their nullness only. -/
structure ListInstance where
  props : ListProps
  state : ListState := {}
  focusItem : Bool := false
  fakeScroll : Bool := false
  scrollToRow : Int := -1
  focusRow : Int := -1
  lastScroll : Option ScrollSide := none
  grid : Bool := false
  resizeObserver : Bool := false
  updateSizeTimeoutId : Option Nat := none

/-- Externally observable effects a method performs, in order. -/
inductive Effect
  | callOnSelectionChanged (row : Int) (source : SourceKind)
  | callOnRowMouseDown (row : Int)
  | callOnRowClick (row : Int)
  | callOnScroll (scrollTop clientHeight : Nat)
  | clearImmediateCall (id : Nat)
  | observerDisconnect
  | releaseUniqueIdCall (token : Nat)
  | focusDomItem
  | focusGridElement
  | forceUpdateSelf
  | gridForceUpdate
  | setGridScrollTop (v : Nat)
  | setFakeScrollTop (v : Nat)
deriving DecidableEq, Repr

/-- JavaScript's remainder operator `%` on integers: the result takes the
sign of the dividend (truncated division), unlike Lean's Euclidean `%`. -/
def jsMod (a b : Int) : Int :=
  if 0 ≤ a then a % b else -((-a) % b)

/-- Method `canSelectRow` (line 360): "Convenience method for invoking
canSelectRow callback when it exists" — defaults to `true`. -/
def canSelectRow (p : ListProps) (rowIndex : Int) : Bool :=
  match p.canSelectRow with
  | some f => f rowIndex
  | none => true

/-- The loop increment of `nextSelectableRow`:
`const delta = direction === 'up' ? i * -1 : i`. -/
def deltaFor (direction : Direction) (i : Nat) : Int :=
  match direction with
  | Direction.up => (i : Int) * (-1)
  | Direction.down => (i : Int)

/-- The row index probed at loop counter `i` in `nextSelectableRow`:
`(baseRow + delta + this.props.rowCount) % this.props.rowCount`
with JavaScript remainder semantics. -/
def probeRow (p : ListProps) (direction : Direction) (baseRow : Int) (i : Nat) : Int :=
  jsMod (baseRow + deltaFor direction i + (p.rowCount : Int)) (p.rowCount : Int)

/-- The `for (let i = 1; i < rowDelta; i++)` loop of `nextSelectableRow`,
by structural recursion on the number of remaining iterations
(`remaining = rowDelta - i` at entry, so `i` runs `1, 2, …, rowDelta - 1`). -/
def searchLoop (p : ListProps) (direction : Direction) (baseRow : Int) :
    Nat → Nat → Option Int
  | _, 0 => none
  | i, remaining + 1 =>
    let nextRow := probeRow p direction baseRow i
    if canSelectRow p nextRow then some nextRow
    else searchLoop p direction baseRow (i + 1) remaining

/-- Computation `const baseRow = Math.min(Math.max(row, -1), this.props.rowCount)`. -/
def baseRowOf (p : ListProps) (row : Int) : Int :=
  min (max row (-1)) (p.rowCount : Int)

/-- Computation `const startOutsideList = row < 0 || row >= this.props.rowCount`. -/
def startOutsideList (p : ListProps) (row : Int) : Bool :=
  row < 0 || (p.rowCount : Int) ≤ row

/-- Computation `const rowDelta = startOutsideList ? rowCount + 1 : rowCount`. -/
def rowDeltaOf (p : ListProps) (row : Int) : Nat :=
  if startOutsideList p row then p.rowCount + 1 else p.rowCount

/-- Public method `nextSelectableRow` (lines 331–357): determine the next
selectable row, given the direction and row, taking `canSelectRow` into
account; returns `null` when the loop finds nothing. -/
def nextSelectableRow (p : ListProps) (direction : Direction) (row : Int) :
    Option Int :=
  searchLoop p direction (baseRowOf p row) 1 (rowDeltaOf p row - 1)

/-- The list of row indices at which the loop body of `nextSelectableRow`
evaluates the modulo expression and the `canSelectRow` predicate, in probe
order (empty when the loop body is never entered). -/
def probedIndices (p : ListProps) (direction : Direction) (row : Int) :
    List Int :=
  (List.range' 1 (rowDeltaOf p row - 1)).map
    (probeRow p direction (baseRowOf p row))

/-- Closed-form description of the set of indices `nextSelectableRow` probes:
for an in-range start, every list row except the start; for direction `up`
from a negative start, the rows `0 … rowCount-2` together with the JavaScript
value of `-1 % rowCount`; otherwise every list row. -/
def visitedIndex (p : ListProps) (dir : Direction) (row j : Int) : Bool :=
  if 0 ≤ row ∧ row < (p.rowCount : Int) then
    decide (0 ≤ j ∧ j < (p.rowCount : Int) ∧ j ≠ row)
  else if dir = Direction.up ∧ row < 0 then
    decide (1 ≤ (p.rowCount : Int) ∧
      ((0 ≤ j ∧ j ≤ (p.rowCount : Int) - 2) ∨ j = -(1 % (p.rowCount : Int))))
  else decide (0 ≤ j ∧ j < (p.rowCount : Int))

/-- The overridden `forceUpdate` (lines 734–741): calls
`super.forceUpdate()` and, when the grid delegate reference is non-null,
`grid.forceUpdate()`. -/
def forceUpdateEffects (s : ListInstance) : List Effect :=
  Effect.forceUpdateSelf ::
    (if s.grid then [Effect.gridForceUpdate] else [])

/-- Method `scrollRowToVisible` (lines 379–387): records the row as the
scroll target, records it as the focus target unless the `focusOnHover` prop
is explicitly `false`, and forces a re-render. -/
def scrollRowToVisible (s : ListInstance) (row : Int) :
    ListInstance × List Effect :=
  let s1 := { s with scrollToRow := row }
  let s2 :=
    if s1.props.focusOnHover ≠ some false then { s1 with focusRow := row }
    else s1
  (s2, forceUpdateEffects s2)

/-- Method `moveSelection` (lines 364–377): computes the next selectable row
from the current `selectedRow` prop; when one exists, notifies
`onSelectionChanged` with a keyboard source and scrolls the row into view. -/
def moveSelection (s : ListInstance) (direction : Direction) :
    ListInstance × List Effect :=
  match nextSelectableRow s.props direction s.props.selectedRow with
  | some newRow =>
    let eff1 :=
      if s.props.hasOnSelectionChanged then
        [Effect.callOnSelectionChanged newRow SourceKind.keyboard]
      else []
    let r := scrollRowToVisible s newRow
    (r.1, eff1 ++ r.2)
  | none => (s, [])

/-- Handler `onRowMouseOver` (lines 311–323): with `selectOnHover` set and a
selectable row that differs from the current selection (and a subscribed
`onSelectionChanged`), fires the hover selection change and scrolls the row
into view. -/
def onRowMouseOver (s : ListInstance) (row : Int) :
    ListInstance × List Effect :=
  if s.props.selectOnHover && canSelectRow s.props row then
    if row != s.props.selectedRow && s.props.hasOnSelectionChanged then
      let r := scrollRowToVisible s row
      (r.1, Effect.callOnSelectionChanged row SourceKind.hover :: r.2)
    else (s, [])
  else (s, [])

/-- Handler `onRowMouseDown` (lines 661–671): on a selectable row, always
forwards to the `onRowMouseDown` prop, and fires `onSelectionChanged` with a
mouseclick source only when the row differs from the current selection. -/
def onRowMouseDown (s : ListInstance) (row : Int) :
    ListInstance × List Effect :=
  if canSelectRow s.props row then
    let eff1 :=
      if s.props.hasOnRowMouseDown then [Effect.callOnRowMouseDown row]
      else []
    if row != s.props.selectedRow && s.props.hasOnSelectionChanged then
      (s, eff1 ++ [Effect.callOnSelectionChanged row SourceKind.mouseclick])
    else (s, eff1)
  else (s, [])

/-- Lifecycle method `componentDidUpdate` (lines 389–427): applies a pending
keyboard focus to the focus item if one exists, and otherwise decides whether
the grid delegate must be forced to re-render. -/
def componentDidUpdate (prevProps : ListProps) (prevState : ListState)
    (s : ListInstance) : ListInstance × List Effect :=
  if 0 ≤ s.focusRow ∧ s.focusItem = true then
    let s2 := { s with focusRow := -1 }
    (s2, Effect.focusDomItem :: forceUpdateEffects s2)
  else if s.grid then
    let gridHasUpdatedAlready : Bool :=
      s.props.rowCount != prevProps.rowCount ||
        s.state.width != prevState.width ||
        s.state.height != prevState.height
    if gridHasUpdatedAlready then (s, [])
    else
      let selectedRowChanged : Bool :=
        prevProps.selectedRow != s.props.selectedRow
      let invalidationPropsChanged : Bool :=
        !shallowEquals prevProps.invalidationProps s.props.invalidationProps
      if selectedRowChanged || invalidationPropsChanged then
        (s, [Effect.gridForceUpdate])
      else (s, [])
  else (s, [])

/-- Lifecycle method `componentWillMount` (lines 429–431): allocates the
unique row-id token.  `createUniqueId` lives in `ui/lib/id-pool`, which is
not under `src/`; the fresh token it returns is passed in as `tok`. -/
def componentWillMount (tok : Nat) (s : ListInstance) : ListInstance :=
  { s with state := { s.state with rowIdToken := some tok } }

/-- Lifecycle method `componentWillUnmount` (lines 433–446): cancels the
pending deferred resize callback if any, disconnects the resize observer if
one was created, and releases the row-id token if one was allocated. -/
def componentWillUnmount (s : ListInstance) : ListInstance × List Effect :=
  let r1 :=
    match s.updateSizeTimeoutId with
    | some tid =>
      ({ s with updateSizeTimeoutId := none }, [Effect.clearImmediateCall tid])
    | none => (s, [])
  let eff2 :=
    if s.resizeObserver then [Effect.observerDisconnect] else []
  let eff3 :=
    match s.state.rowIdToken with
    | some tok => [Effect.releaseUniqueIdCall tok]
    | none => []
  (r1.1, r1.2 ++ eff2 ++ eff3)

/-- Handler `onFakeScroll` (lines 642–659): propagates a scroll on the fake
scroll bar to the real grid, unless the event is the echo of a grid-initiated
sync.  The write to `element.scrollTop` happens only when the grid delegate
reference (and hence its DOM node) exists. -/
def onFakeScroll (s : ListInstance) (scrollTop : Nat) :
    ListInstance × List Effect :=
  if s.lastScroll = some ScrollSide.grid then
    ({ s with lastScroll := none }, [])
  else
    let s2 := { s with lastScroll := some ScrollSide.fake }
    if s2.grid then (s2, [Effect.setGridScrollTop scrollTop])
    else (s2, [])

/-- Handler `onScroll` (lines 679–706): forwards to the `onScroll` prop and,
on Windows with a fake scroll bar present, mirrors the grid's offset to the
fake scroll bar unless the event is the echo of a fake-initiated sync.
`__WIN32__` is a compile-time global, passed in as `win32`. -/
def onScroll (win32 : Bool) (s : ListInstance) (scrollTop clientHeight : Nat) :
    ListInstance × List Effect :=
  let eff0 :=
    if s.props.hasOnScroll then
      [Effect.callOnScroll scrollTop clientHeight]
    else []
  if win32 && s.fakeScroll then
    if s.lastScroll = some ScrollSide.fake then
      ({ s with lastScroll := none }, eff0)
    else
      ({ s with lastScroll := some ScrollSide.grid },
        eff0 ++ [Effect.setFakeScrollTop scrollTop])
  else (s, eff0)

/-- Public method `focus` (lines 718–732): scrolls to and focuses the
selected row when it is within the list; otherwise focuses the grid's DOM
element when the grid delegate exists; otherwise does nothing. -/
def focus (s : ListInstance) : ListInstance × List Effect :=
  if 0 ≤ s.props.selectedRow ∧ s.props.selectedRow < (s.props.rowCount : Int)
  then scrollRowToVisible s s.props.selectedRow
  else if s.grid then (s, [Effect.focusGridElement])
  else (s, [])

/-- The `totalHeight` computation of `renderFakeScroll` (lines 614–623):
`rowHeight * rowCount` for a fixed row height, else the accumulation loop
`for (let i = 0; i < rowCount; i++) totalHeight += rowHeight({index: i})`. -/
def totalFakeScrollHeight (p : ListProps) : Int :=
  match p.rowHeight with
  | RowHeight.fixed h => h * (p.rowCount : Int)
  | RowHeight.perRow f =>
    (List.range p.rowCount).foldl (fun acc i => acc + f i) 0

/-- Method `renderFakeScroll` (lines 614–636), reduced to the geometry it
emits: the outer fake-scroll container height (the viewport height) and the
inner spacer div's height (the total list height). -/
def renderFakeScroll (p : ListProps) (height : Nat) : Int × Int :=
  ((height : Int), totalFakeScrollHeight p)

/-- Predicate singling out the cross-container scroll offset writes among the
effects (`element.scrollTop = …` and `fakeScroll.scrollTop = …`). -/
def isScrollWrite : Effect → Bool
  | Effect.setGridScrollTop _ => true
  | Effect.setFakeScrollTop _ => true
  | _ => false

/-- Number of scroll-offset writes among a list of effects. -/
def countWrites (effects : List Effect) : Nat :=
  (effects.filter isScrollWrite).length

/-!
Concrete configurations used to exercise the theorems below.
-/

/-- Five rows of which exactly index 2 is not selectable (the worked example
of the spec's testable properties). -/
def examplePropsFive : ListProps :=
  { rowCount := 5, canSelectRow := some (fun i => i != 2) }

/-- A single row, every row selectable. -/
def examplePropsOne : ListProps := { rowCount := 1 }

/-- Two rows, only row 1 selectable. -/
def examplePropsOnlyRowOne : ListProps :=
  { rowCount := 2, canSelectRow := some (fun i => i == 1) }

/-- Two rows, with a predicate accepting only the index -1. -/
def examplePropsOnlyMinusOne : ListProps :=
  { rowCount := 2, canSelectRow := some (fun i => i == -1) }

/-- An instance for the pointer-handler claims: three rows, row 2 currently
selected, hover selection enabled and the relevant callbacks subscribed. -/
def exampleInstPointer : ListInstance :=
  { props := { rowCount := 3, selectedRow := 2, selectOnHover := true,
               hasOnSelectionChanged := true, hasOnRowMouseDown := true } }

/-- An instance whose grid delegate exists. -/
def exampleInstGrid : ListInstance :=
  { props := { rowCount := 3, selectedRow := 1 }, grid := true }

/-- A mounted instance with default props (in particular `focusOnHover`
undefined): keyboard navigation is expected to move focus. -/
def exampleInstFocusDefault : ListInstance :=
  { props := { rowCount := 2, selectedRow := 0, hasOnSelectionChanged := true },
    focusItem := true, grid := true }

/-- The same instance with `focusOnHover` explicitly `false`. -/
def exampleInstFocusSuppressed : ListInstance :=
  { props := { rowCount := 2, selectedRow := 0, hasOnSelectionChanged := true,
               focusOnHover := some false },
    focusItem := true, grid := true }

/-- An instance whose last scroll mover was the grid. -/
def exampleInstEchoGrid : ListInstance :=
  { props := { rowCount := 3 }, grid := true, fakeScroll := true,
    lastScroll := some ScrollSide.grid }

/-- An instance whose last scroll mover was the fake scroll bar. -/
def exampleInstEchoFake : ListInstance :=
  { props := { rowCount := 3 }, grid := true, fakeScroll := true,
    lastScroll := some ScrollSide.fake }

/-- An instance with no scroll sync in flight. -/
def exampleInstIdle : ListInstance :=
  { props := { rowCount := 3 }, grid := true, fakeScroll := true }

/-- An instance holding all three releasable resources: a pending deferred
resize callback, a resize observer and an allocated row-id token. -/
def exampleInstResources : ListInstance :=
  { props := { rowCount := 3 }, state := { rowIdToken := some 11 },
    resizeObserver := true, updateSizeTimeoutId := some 7 }

/-- An unmounted instance: no grid delegate and no selection. -/
def exampleInstUnmounted : ListInstance := { props := { rowCount := 4 } }

/-!
Lemma layer: the search loop of `nextSelectableRow` is a first-match search
over `probedIndices`, and `probedIndices` is characterized index-set-wise by
`visitedIndex`.
-/

theorem jsMod_of_nonneg (a b : Int) (h : 0 ≤ a) : jsMod a b = a % b := by
  simp [jsMod, h]

theorem jsMod_neg_one (b : Int) : jsMod (-1) b = -(1 % b) := by
  norm_num [jsMod]

theorem searchLoop_eq_find (p : ListProps) (dir : Direction) (b : Int) :
    ∀ (k i : Nat),
      searchLoop p dir b i k =
        ((List.range' i k).map (probeRow p dir b)).find? (canSelectRow p)
  | 0, i => by simp [searchLoop]
  | k + 1, i => by
    rw [List.range'_succ]
    simp only [List.map_cons, List.find?_cons]
    rw [searchLoop]
    cases h : canSelectRow p (probeRow p dir b i) <;>
      simp [h, searchLoop_eq_find p dir b k (i + 1)]

theorem nextSelectableRow_eq_find (p : ListProps) (dir : Direction)
    (row : Int) :
    nextSelectableRow p dir row =
      (probedIndices p dir row).find? (canSelectRow p) :=
  searchLoop_eq_find p dir (baseRowOf p row) (rowDeltaOf p row - 1) 1

theorem mem_probedIndices_iff_exists (p : ListProps) (dir : Direction)
    (row j : Int) :
    j ∈ probedIndices p dir row ↔
      ∃ i : Nat, 1 ≤ i ∧ i < rowDeltaOf p row ∧
        probeRow p dir (baseRowOf p row) i = j := by
  unfold probedIndices
  rw [List.mem_map]
  constructor
  · rintro ⟨i, hi, rfl⟩
    rw [List.mem_range'_1] at hi
    exact ⟨i, hi.1, by omega, rfl⟩
  · rintro ⟨i, h1, h2, rfl⟩
    exact ⟨i, List.mem_range'_1.mpr ⟨h1, by omega⟩, rfl⟩

theorem probeRow_down (p : ListProps) (b : Int) (i : Nat) :
    probeRow p Direction.down b i =
      jsMod (b + i + (p.rowCount : Int)) (p.rowCount : Int) := rfl

theorem probeRow_up (p : ListProps) (b : Int) (i : Nat) :
    probeRow p Direction.up b i =
      jsMod (b - i + (p.rowCount : Int)) (p.rowCount : Int) := by
  simp only [probeRow, deltaFor]
  ring_nf

theorem emod_add_ne_self (N x i : Int) (hx0 : 0 ≤ x) (hx1 : x < N)
    (hi0 : 0 < i) (hi1 : i < N) : (x + i) % N ≠ x := by
  intro h
  have hx : x % N = x := Int.emod_eq_of_lt hx0 hx1
  have h2 : (x + i) % N = x % N := by rw [h, hx]
  have h3 : (x + i - x) % N = 0 :=
    Int.emod_eq_emod_iff_emod_sub_eq_zero.mp h2
  rw [show x + i - x = i by ring] at h3
  have h5 : N ∣ i := Int.dvd_of_emod_eq_zero h3
  have h6 := Int.le_of_dvd hi0 h5
  omega

theorem emod_sub_ne_self (N x i : Int) (hx0 : 0 ≤ x) (hx1 : x < N)
    (hi0 : 0 < i) (hi1 : i < N) : (x - i) % N ≠ x := by
  intro h
  have hx : x % N = x := Int.emod_eq_of_lt hx0 hx1
  have h2 : (x - i) % N = x % N := by rw [h, hx]
  have h3 : (x - i - x) % N = 0 :=
    Int.emod_eq_emod_iff_emod_sub_eq_zero.mp h2
  rw [show x - i - x = -i by ring] at h3
  have h5 : N ∣ -i := Int.dvd_of_emod_eq_zero h3
  have h6 := Int.le_of_dvd hi0 (dvd_neg.mp h5)
  omega

theorem emod_ne_zero_of_ne (N x j : Int) (hx0 : 0 ≤ x) (hx1 : x < N)
    (hj0 : 0 ≤ j) (hj1 : j < N) (hne : j ≠ x) : (j - x) % N ≠ 0 := by
  intro h
  have hd : N ∣ j - x := Int.dvd_of_emod_eq_zero h
  have habs : |j - x| < N := abs_lt.mpr ⟨by omega, by omega⟩
  have := Int.eq_zero_of_abs_lt_dvd hd habs
  omega

theorem emod_add_round (N x d : Int) :
    (x + d % N) % N = (x + d) % N := by
  conv_lhs => rw [Int.add_emod]
  rw [Int.emod_emod_of_dvd _ dvd_rfl, ← Int.add_emod]

theorem emod_sub_round (N x d : Int) :
    (x - d % N) % N = (x - d) % N := by
  conv_lhs => rw [Int.sub_emod]
  rw [Int.emod_emod_of_dvd _ dvd_rfl, ← Int.sub_emod]

theorem baseRowOf_inside (p : ListProps) (row : Int) (h0 : 0 ≤ row)
    (h1 : row < (p.rowCount : Int)) : baseRowOf p row = row := by
  unfold baseRowOf
  omega

theorem baseRowOf_ge (p : ListProps) (row : Int)
    (h : (p.rowCount : Int) ≤ row) : baseRowOf p row = (p.rowCount : Int) := by
  unfold baseRowOf
  omega

theorem baseRowOf_neg (p : ListProps) (row : Int) (h : row < 0) :
    baseRowOf p row = -1 := by
  unfold baseRowOf
  omega

theorem rowDeltaOf_inside (p : ListProps) (row : Int) (h0 : 0 ≤ row)
    (h1 : row < (p.rowCount : Int)) : rowDeltaOf p row = p.rowCount := by
  unfold rowDeltaOf startOutsideList
  rw [if_neg]
  simp only [Bool.or_eq_true, decide_eq_true_eq, not_or]
  omega

theorem rowDeltaOf_outside (p : ListProps) (row : Int)
    (h : row < 0 ∨ (p.rowCount : Int) ≤ row) :
    rowDeltaOf p row = p.rowCount + 1 := by
  unfold rowDeltaOf startOutsideList
  rw [if_pos]
  simp only [Bool.or_eq_true, decide_eq_true_eq]
  omega

theorem mem_probed_inside (p : ListProps) (dir : Direction) (row j : Int)
    (h0 : 0 ≤ row) (h1 : row < (p.rowCount : Int)) :
    j ∈ probedIndices p dir row ↔
      0 ≤ j ∧ j < (p.rowCount : Int) ∧ j ≠ row := by
  have hNpos : (0 : Int) < (p.rowCount : Int) := by omega
  have hNne : ((p.rowCount : Int)) ≠ 0 := by omega
  rw [mem_probedIndices_iff_exists, baseRowOf_inside p row h0 h1,
    rowDeltaOf_inside p row h0 h1]
  cases dir
  case down =>
    constructor
    · rintro ⟨i, hi1, hi2, rfl⟩
      have hiN : (i : Int) < (p.rowCount : Int) := by omega
      have hi0 : (0 : Int) < (i : Int) := by omega
      rw [probeRow_down, jsMod_of_nonneg _ _ (by omega), Int.add_emod_self]
      refine ⟨Int.emod_nonneg _ hNne, Int.emod_lt_of_pos _ hNpos, ?_⟩
      exact emod_add_ne_self _ row i h0 h1 hi0 hiN
    · rintro ⟨hj0, hj1, hjne⟩
      have hd0 : 0 ≤ (j - row) % (p.rowCount : Int) :=
        Int.emod_nonneg _ hNne
      have hd1 : (j - row) % (p.rowCount : Int) < (p.rowCount : Int) :=
        Int.emod_lt_of_pos _ hNpos
      have hdne : (j - row) % (p.rowCount : Int) ≠ 0 :=
        emod_ne_zero_of_ne _ row j h0 h1 hj0 hj1 hjne
      refine ⟨((j - row) % (p.rowCount : Int)).toNat, by omega, by omega, ?_⟩
      rw [probeRow_down, Int.toNat_of_nonneg hd0,
        jsMod_of_nonneg _ _ (by omega), Int.add_emod_self, emod_add_round,
        show row + (j - row) = j by ring, Int.emod_eq_of_lt hj0 hj1]
  case up =>
    constructor
    · rintro ⟨i, hi1, hi2, rfl⟩
      have hiN : (i : Int) < (p.rowCount : Int) := by omega
      have hi0 : (0 : Int) < (i : Int) := by omega
      rw [probeRow_up, jsMod_of_nonneg _ _ (by omega), Int.add_emod_self]
      refine ⟨Int.emod_nonneg _ hNne, Int.emod_lt_of_pos _ hNpos, ?_⟩
      exact emod_sub_ne_self _ row i h0 h1 hi0 hiN
    · rintro ⟨hj0, hj1, hjne⟩
      have hd0 : 0 ≤ (row - j) % (p.rowCount : Int) :=
        Int.emod_nonneg _ hNne
      have hd1 : (row - j) % (p.rowCount : Int) < (p.rowCount : Int) :=
        Int.emod_lt_of_pos _ hNpos
      have hdne : (row - j) % (p.rowCount : Int) ≠ 0 := by
        intro h
        have hd : (p.rowCount : Int) ∣ row - j := Int.dvd_of_emod_eq_zero h
        have habs : |row - j| < (p.rowCount : Int) :=
          abs_lt.mpr ⟨by omega, by omega⟩
        have := Int.eq_zero_of_abs_lt_dvd hd habs
        omega
      refine ⟨((row - j) % (p.rowCount : Int)).toNat, by omega, by omega, ?_⟩
      rw [probeRow_up, Int.toNat_of_nonneg hd0,
        jsMod_of_nonneg _ _ (by omega), Int.add_emod_self, emod_sub_round,
        show row - (row - j) = j by ring, Int.emod_eq_of_lt hj0 hj1]

theorem mem_probed_ge (p : ListProps) (dir : Direction) (row j : Int)
    (h : (p.rowCount : Int) ≤ row) :
    j ∈ probedIndices p dir row ↔ 0 ≤ j ∧ j < (p.rowCount : Int) := by
  rw [mem_probedIndices_iff_exists, baseRowOf_ge p row h,
    rowDeltaOf_outside p row (Or.inr h)]
  cases dir
  case down =>
    constructor
    · rintro ⟨i, hi1, hi2, rfl⟩
      have hNpos : (0 : Int) < (p.rowCount : Int) := by omega
      rw [probeRow_down, jsMod_of_nonneg _ _ (by omega),
        show (p.rowCount : Int) + i + p.rowCount = i + p.rowCount + p.rowCount
          by ring, Int.add_emod_self, Int.add_emod_self]
      exact ⟨Int.emod_nonneg _ (by omega), Int.emod_lt_of_pos _ hNpos⟩
    · rintro ⟨hj0, hj1⟩
      have hNpos : (0 : Int) < (p.rowCount : Int) := by omega
      by_cases hj : j = 0
      · refine ⟨p.rowCount, by omega, by omega, ?_⟩
        rw [probeRow_down, jsMod_of_nonneg _ _ (by omega),
          show (p.rowCount : Int) + p.rowCount + p.rowCount =
            ((p.rowCount : Int) + p.rowCount) + p.rowCount by ring,
          Int.add_emod_self, Int.add_emod_self, Int.emod_self, hj]
      · refine ⟨j.toNat, by omega, by omega, ?_⟩
        rw [probeRow_down, Int.toNat_of_nonneg hj0,
          jsMod_of_nonneg _ _ (by omega),
          show (p.rowCount : Int) + j + p.rowCount = j + p.rowCount + p.rowCount
            by ring, Int.add_emod_self, Int.add_emod_self,
          Int.emod_eq_of_lt hj0 hj1]
  case up =>
    constructor
    · rintro ⟨i, hi1, hi2, rfl⟩
      have hiN : (i : Int) ≤ (p.rowCount : Int) := by omega
      rw [probeRow_up, jsMod_of_nonneg _ _ (by omega),
        Int.add_emod_self, Int.emod_eq_of_lt (by omega) (by omega)]
      omega
    · rintro ⟨hj0, hj1⟩
      refine ⟨((p.rowCount : Int) - j).toNat, by omega, by omega, ?_⟩
      rw [probeRow_up, Int.toNat_of_nonneg (by omega : (0:Int) ≤ p.rowCount - j),
        show (p.rowCount : Int) - ((p.rowCount : Int) - j) + p.rowCount =
          j + p.rowCount by ring, jsMod_of_nonneg _ _ (by omega),
        Int.add_emod_self, Int.emod_eq_of_lt hj0 hj1]

theorem mem_probed_neg_down (p : ListProps) (row j : Int) (h : row < 0) :
    j ∈ probedIndices p Direction.down row ↔
      0 ≤ j ∧ j < (p.rowCount : Int) := by
  rw [mem_probedIndices_iff_exists, baseRowOf_neg p row h,
    rowDeltaOf_outside p row (Or.inl h)]
  constructor
  · rintro ⟨i, hi1, hi2, rfl⟩
    rw [probeRow_down, jsMod_of_nonneg _ _ (by omega),
      show (-1 : Int) + i + p.rowCount = ((i : Int) - 1) + p.rowCount by ring,
      Int.add_emod_self, Int.emod_eq_of_lt (by omega) (by omega)]
    omega
  · rintro ⟨hj0, hj1⟩
    refine ⟨(j + 1).toNat, by omega, by omega, ?_⟩
    rw [probeRow_down, Int.toNat_of_nonneg (by omega : (0:Int) ≤ j + 1),
      show (-1 : Int) + (j + 1) + p.rowCount = j + p.rowCount by ring,
      jsMod_of_nonneg _ _ (by omega), Int.add_emod_self,
      Int.emod_eq_of_lt hj0 hj1]

theorem mem_probed_neg_up (p : ListProps) (row j : Int) (h : row < 0) :
    j ∈ probedIndices p Direction.up row ↔
      (1 ≤ (p.rowCount : Int) ∧
        ((0 ≤ j ∧ j ≤ (p.rowCount : Int) - 2) ∨
          j = -(1 % (p.rowCount : Int)))) := by
  rw [mem_probedIndices_iff_exists, baseRowOf_neg p row h,
    rowDeltaOf_outside p row (Or.inl h)]
  constructor
  · rintro ⟨i, hi1, hi2, rfl⟩
    refine ⟨by omega, ?_⟩
    by_cases hlast : i = p.rowCount
    · right
      rw [probeRow_up, hlast,
        show (-1 : Int) - (p.rowCount : Int) + (p.rowCount : Int) = -1 by ring,
        jsMod_neg_one]
    · left
      have hiN : (i : Int) ≤ (p.rowCount : Int) - 1 := by omega
      rw [probeRow_up, jsMod_of_nonneg _ _ (by omega),
        Int.emod_eq_of_lt (by omega) (by omega)]
      omega
  · rintro ⟨hN, hj | hj⟩
    · refine ⟨((p.rowCount : Int) - 1 - j).toNat, by omega, by omega, ?_⟩
      rw [probeRow_up,
        Int.toNat_of_nonneg (by omega : (0:Int) ≤ (p.rowCount : Int) - 1 - j),
        show (-1 : Int) - ((p.rowCount : Int) - 1 - j) + (p.rowCount : Int) = j
          by ring, jsMod_of_nonneg _ _ (by omega),
        Int.emod_eq_of_lt (by omega) (by omega)]
    · refine ⟨p.rowCount, by omega, by omega, ?_⟩
      rw [probeRow_up,
        show (-1 : Int) - (p.rowCount : Int) + (p.rowCount : Int) = -1 by ring,
        jsMod_neg_one, hj]

theorem mem_probedIndices (p : ListProps) (dir : Direction) (row j : Int) :
    j ∈ probedIndices p dir row ↔ visitedIndex p dir row j = true := by
  unfold visitedIndex
  by_cases hin : 0 ≤ row ∧ row < (p.rowCount : Int)
  · rw [if_pos hin]
    simp only [decide_eq_true_eq]
    exact mem_probed_inside p dir row j hin.1 hin.2
  · rw [if_neg hin]
    by_cases hup : dir = Direction.up ∧ row < 0
    · rw [if_pos hup]
      simp only [decide_eq_true_eq]
      rw [hup.1]
      exact mem_probed_neg_up p row j hup.2
    · rw [if_neg hup]
      simp only [decide_eq_true_eq]
      cases dir with
      | up =>
        have hge : (p.rowCount : Int) ≤ row := by
          rcases not_and_or.mp hup with h | h
          · exact absurd rfl h
          · omega
        exact mem_probed_ge p Direction.up row j hge
      | down =>
        by_cases hneg : row < 0
        · exact mem_probed_neg_down p row j hneg
        · exact mem_probed_ge p Direction.down row j (by omega)

/-!
Claim theorems.
-/

/-- C1 (amended): for every direction and starting row, a row returned by
`nextSelectableRow` satisfies `canSelectRow` and lies in the probed set
described by `visitedIndex`, and the method returns `none` exactly when no
index in that set is selectable.  Except when the direction is `up` and the
starting row is negative, the probed set is exactly the rows in
`[0, rowCount)` other than an in-range starting row — so there the walk
skips unselectable rows, a returned index is in range and selectable, and
`none` comes back exactly when no other in-range row qualifies.  In the
excepted case the probed set is `{0, …, rowCount - 2}` together with the
JavaScript value of `-1 % rowCount`: row `rowCount - 1` is never probed and
the returned index may be `-1`. -/
theorem nextSelectableRow_amended (p : ListProps) (dir : Direction)
    (row : Int) :
    (∀ r, nextSelectableRow p dir row = some r →
      canSelectRow p r = true ∧ visitedIndex p dir row r = true) ∧
    (nextSelectableRow p dir row = none ↔
      ∀ j : Int, visitedIndex p dir row j = true → canSelectRow p j = false) ∧
    (¬(dir = Direction.up ∧ row < 0) →
      ∀ j : Int, visitedIndex p dir row j = true ↔
        (0 ≤ j ∧ j < (p.rowCount : Int) ∧
          (0 ≤ row → row < (p.rowCount : Int) → j ≠ row))) := by
  refine ⟨?_, ?_, ?_⟩
  · intro r h
    rw [nextSelectableRow_eq_find] at h
    exact ⟨List.find?_some h,
      (mem_probedIndices p dir row r).mp (List.mem_of_find?_eq_some h)⟩
  · rw [nextSelectableRow_eq_find, List.find?_eq_none]
    constructor
    · intro h j hv
      have := h j ((mem_probedIndices p dir row j).mpr hv)
      simpa using this
    · intro h x hx
      have := h x ((mem_probedIndices p dir row x).mp hx)
      simp [this]
  · intro hnot j
    unfold visitedIndex
    by_cases hin : 0 ≤ row ∧ row < (p.rowCount : Int)
    · rw [if_pos hin]
      simp only [decide_eq_true_eq]
      constructor
      · rintro ⟨a, b, c⟩
        exact ⟨a, b, fun _ _ => c⟩
      · rintro ⟨a, b, c⟩
        exact ⟨a, b, c hin.1 hin.2⟩
    · rw [if_neg hin, if_neg hnot]
      simp only [decide_eq_true_eq]
      constructor
      · rintro ⟨a, b⟩
        exact ⟨a, b, fun h1 h2 => absurd ⟨h1, h2⟩ hin⟩
      · rintro ⟨a, b, _⟩
        exact ⟨a, b⟩

/-- C1 witness: the amended characterization instantiated at the five-row
example, where moving down from row 1 returns row 3. -/
theorem nextSelectableRow_amended_witness :
    canSelectRow examplePropsFive 3 = true ∧
      visitedIndex examplePropsFive Direction.down 1 3 = true :=
  (nextSelectableRow_amended examplePropsFive Direction.down 1).1 3 (by decide)

/-- C1 counterexample to the claim as stated: with a single all-selectable
row, moving down from row 0 yields `none` although row 0 is in range and
selectable; moving up from row -1 in a two-row list returns `none` even
though row 1 is in range and selectable; and with a predicate accepting
index -1 that same walk returns the out-of-range index -1. -/
theorem nextSelectableRow_claim_counterexample :
    (nextSelectableRow examplePropsOne Direction.down 0 = none ∧
      canSelectRow examplePropsOne 0 = true) ∧
    (nextSelectableRow examplePropsOnlyRowOne Direction.up (-1) = none ∧
      canSelectRow examplePropsOnlyRowOne 1 = true) ∧
    nextSelectableRow examplePropsOnlyMinusOne Direction.up (-1) =
      some (-1) := by
  decide

/-- C2: with `rowCount = 5` and a predicate that rejects exactly index 2,
`nextSelectableRow('down', 1)` returns 3. -/
theorem nextSelectableRow_example_down :
    nextSelectableRow examplePropsFive Direction.down 1 = some 3 := by
  decide

/-- C9: when `rowCount` is 0 the search loop body is never entered — the
list of row indices at which the modulo expression would be evaluated is
empty — and `nextSelectableRow` returns `none` for every direction and
starting row. -/
theorem nextSelectableRow_empty (p : ListProps) (dir : Direction) (row : Int)
    (h : p.rowCount = 0) :
    nextSelectableRow p dir row = none ∧ probedIndices p dir row = [] := by
  have hd : rowDeltaOf p row = 1 := by
    rw [rowDeltaOf_outside p row (by omega), h]
  constructor
  · unfold nextSelectableRow
    rw [hd]
    rfl
  · unfold probedIndices
    rw [hd]
    rfl

/-- C9 witness: the zero-row configuration evaluated at a concrete call. -/
theorem nextSelectableRow_empty_witness :
    nextSelectableRow { rowCount := 0 } Direction.down 5 = none ∧
      probedIndices { rowCount := 0 } Direction.down 5 = [] :=
  nextSelectableRow_empty { rowCount := 0 } Direction.down 5 rfl

theorem selectionChanged_onRowMouseDown_iff (s : ListInstance) (row r : Int)
    (src : SourceKind) :
    Effect.callOnSelectionChanged r src ∈ (onRowMouseDown s row).2 ↔
      (canSelectRow s.props row = true ∧ row ≠ s.props.selectedRow ∧
        s.props.hasOnSelectionChanged = true ∧ r = row ∧
        src = SourceKind.mouseclick) := by
  simp only [onRowMouseDown]
  split_ifs with h1 h2 h3 <;> simp_all

theorem selectionChanged_onRowMouseOver_iff (s : ListInstance) (row r : Int)
    (src : SourceKind) :
    Effect.callOnSelectionChanged r src ∈ (onRowMouseOver s row).2 ↔
      (s.props.selectOnHover = true ∧ canSelectRow s.props row = true ∧
        row ≠ s.props.selectedRow ∧ s.props.hasOnSelectionChanged = true ∧
        r = row ∧ src = SourceKind.hover) := by
  simp only [onRowMouseOver, scrollRowToVisible, forceUpdateEffects]
  split_ifs with h1 h2 h3 <;> simp_all

/-- C3: a pointer press (`onRowMouseDown`) or hover (`onRowMouseOver`) on the
row that is already `selectedRow` never emits `onSelectionChanged`, and those
handlers emit it only when the target row is selectable and differs from the
current `selectedRow`. -/
theorem pointer_on_selected_row_no_selection_change (s : ListInstance)
    (row : Int) :
    (row = s.props.selectedRow →
      (∀ r src,
        Effect.callOnSelectionChanged r src ∉ (onRowMouseDown s row).2) ∧
      (∀ r src,
        Effect.callOnSelectionChanged r src ∉ (onRowMouseOver s row).2)) ∧
    (∀ r src, Effect.callOnSelectionChanged r src ∈ (onRowMouseDown s row).2 →
      canSelectRow s.props row = true ∧ row ≠ s.props.selectedRow) ∧
    (∀ r src, Effect.callOnSelectionChanged r src ∈ (onRowMouseOver s row).2 →
      canSelectRow s.props row = true ∧ row ≠ s.props.selectedRow) := by
  refine ⟨?_, ?_, ?_⟩
  · intro heq
    constructor
    · intro r src hmem
      exact ((selectionChanged_onRowMouseDown_iff s row r src).mp hmem).2.1 heq
    · intro r src hmem
      exact
        ((selectionChanged_onRowMouseOver_iff s row r src).mp hmem).2.2.1 heq
  · intro r src hmem
    have h := (selectionChanged_onRowMouseDown_iff s row r src).mp hmem
    exact ⟨h.1, h.2.1⟩
  · intro r src hmem
    have h := (selectionChanged_onRowMouseOver_iff s row r src).mp hmem
    exact ⟨h.2.1, h.2.2.1⟩

/-- C3 witness: pressing and hovering on the already-selected row 2 of the
example pointer instance emits no selection change. -/
theorem pointer_on_selected_row_no_selection_change_witness :
    Effect.callOnSelectionChanged 2 SourceKind.mouseclick ∉
      (onRowMouseDown exampleInstPointer 2).2 ∧
    Effect.callOnSelectionChanged 2 SourceKind.hover ∉
      (onRowMouseOver exampleInstPointer 2).2 :=
  ⟨((pointer_on_selected_row_no_selection_change exampleInstPointer 2).1
      rfl).1 2 SourceKind.mouseclick,
   ((pointer_on_selected_row_no_selection_change exampleInstPointer 2).1
      rfl).2 2 SourceKind.hover⟩

/-- C4: with no pending focus row, an existing grid delegate and unchanged
`rowCount`, width and height, `componentDidUpdate` forces the grid delegate
to re-render exactly when the `selectedRow` prop changed or the
`invalidationProps` prop is not shallow-equal to its previous value. -/
theorem componentDidUpdate_grid_forceUpdate_iff (prevProps : ListProps)
    (prevState : ListState) (s : ListInstance)
    (hfocus : s.focusRow < 0) (hgrid : s.grid = true)
    (hrc : s.props.rowCount = prevProps.rowCount)
    (hw : s.state.width = prevState.width)
    (hh : s.state.height = prevState.height) :
    Effect.gridForceUpdate ∈ (componentDidUpdate prevProps prevState s).2 ↔
      (prevProps.selectedRow ≠ s.props.selectedRow ∨
        shallowEquals prevProps.invalidationProps s.props.invalidationProps
          = false) := by
  have h1 : ¬(0 ≤ s.focusRow ∧ s.focusItem = true) :=
    fun h => absurd h.1 (by omega)
  simp only [componentDidUpdate]
  rw [if_neg h1, if_pos hgrid, hrc, hw, hh]
  simp only [bne_self_eq_false, Bool.or_self, Bool.false_eq_true, if_false]
  by_cases hsel : prevProps.selectedRow = s.props.selectedRow
  · cases hinv :
      shallowEquals prevProps.invalidationProps s.props.invalidationProps <;>
      simp [hsel, hinv]
  · simp [hsel]

/-- C4 witness: a selected-row change with everything else unchanged forces
the grid to re-render. -/
theorem componentDidUpdate_grid_forceUpdate_iff_witness :
    Effect.gridForceUpdate ∈
      (componentDidUpdate { rowCount := 3, selectedRow := 0 } {}
        exampleInstGrid).2 :=
  (componentDidUpdate_grid_forceUpdate_iff { rowCount := 3, selectedRow := 0 }
      {} exampleInstGrid (by decide) rfl rfl rfl rfl).mpr
    (Or.inl (by decide))

/-- C5 (code-bug exhibit): with default props keyboard navigation records the
newly found row as the focus target and the following update emits the DOM
focus move; but when the `focusOnHover` prop is explicitly `false` — a prop
documented to only affect hover selection — `moveSelection` leaves the focus
target unset and no DOM focus move ever happens on update, contradicting the
claim (and the spec) that keyboard-driven changes move focus. -/
theorem moveSelection_focus_divergence :
    ((moveSelection exampleInstFocusDefault Direction.down).1.focusRow = 1 ∧
      Effect.focusDomItem ∈
        (componentDidUpdate exampleInstFocusDefault.props
          exampleInstFocusDefault.state
          (moveSelection exampleInstFocusDefault Direction.down).1).2) ∧
    ((moveSelection exampleInstFocusSuppressed Direction.down).1.focusRow
        = -1 ∧
      Effect.focusDomItem ∉
        (componentDidUpdate exampleInstFocusSuppressed.props
          exampleInstFocusSuppressed.state
          (moveSelection exampleInstFocusSuppressed Direction.down).1).2) := by
  decide

theorem countWrites_callback_prefix (c : Bool) (v h : Nat) :
    countWrites (if c then [Effect.callOnScroll v h] else []) = 0 := by
  cases c <;> simp [countWrites, isScrollWrite]

theorem onFakeScroll_writes_le (s : ListInstance) (v : Nat) :
    countWrites (onFakeScroll s v).2 ≤ 1 := by
  simp only [onFakeScroll]
  split_ifs <;> simp [countWrites, isScrollWrite]

theorem onScroll_writes_le (win32 : Bool) (s : ListInstance) (v h : Nat) :
    countWrites (onScroll win32 s v h).2 ≤ 1 := by
  simp only [onScroll]
  split_ifs <;>
    cases hos : s.props.hasOnScroll <;>
      simp_all [countWrites, isScrollWrite, List.filter_append]

theorem onScroll_echo_writes (win32 : Bool) (s : ListInstance) (v h : Nat)
    (hf : s.lastScroll = some ScrollSide.fake) :
    countWrites (onScroll win32 s v h).2 = 0 := by
  simp only [onScroll]
  split_ifs <;> simp_all [countWrites, isScrollWrite]

theorem onFakeScroll_state_of_none (s : ListInstance) (v : Nat)
    (h : s.lastScroll = none) :
    (onFakeScroll s v).1.lastScroll = some ScrollSide.fake := by
  simp only [onFakeScroll]
  rw [if_neg (by simp [h])]
  split_ifs <;> rfl

theorem onScroll_state_of_none (win32 : Bool) (s : ListInstance) (v h : Nat)
    (hn : s.lastScroll = none) (hw : win32 = true)
    (hfs : s.fakeScroll = true) :
    (onScroll win32 s v h).1.lastScroll = some ScrollSide.grid := by
  subst hw
  simp [onScroll, hfs, hn]

/-- C6: the scroll mirroring between the grid and the fake scroll bar never
feeds back: an echo event (one arriving while `lastScroll` records the other
side as the initiator) clears the flag and writes nothing, and a user scroll
arriving with no sync in flight causes at most one write to the opposite
side, whose echo then writes nothing back. -/
theorem scroll_sync_no_feedback (s : ListInstance) (win32 : Bool)
    (v h v2 h2 : Nat) :
    (s.lastScroll = some ScrollSide.grid →
      (onFakeScroll s v).1.lastScroll = none ∧ (onFakeScroll s v).2 = []) ∧
    (s.lastScroll = some ScrollSide.fake → win32 = true →
      s.fakeScroll = true →
      (onScroll win32 s v h).1.lastScroll = none ∧
        countWrites (onScroll win32 s v h).2 = 0) ∧
    (s.lastScroll = none →
      countWrites (onFakeScroll s v).2 ≤ 1 ∧
        countWrites (onScroll win32 (onFakeScroll s v).1 v2 h2).2 = 0) ∧
    (s.lastScroll = none → win32 = true → s.fakeScroll = true →
      countWrites (onScroll win32 s v h).2 ≤ 1 ∧
        countWrites (onFakeScroll (onScroll win32 s v h).1 v2).2 = 0) := by
  refine ⟨?_, ?_, ?_, ?_⟩
  · intro hg
    unfold onFakeScroll
    rw [if_pos hg]
    exact ⟨rfl, rfl⟩
  · intro hf hw hfs
    subst hw
    simp only [onScroll]
    rw [hfs, if_pos (show (true && true) = true from rfl), if_pos hf]
    exact ⟨rfl, countWrites_callback_prefix _ v h⟩
  · intro hn
    refine ⟨onFakeScroll_writes_le s v, ?_⟩
    exact onScroll_echo_writes win32 _ v2 h2 (onFakeScroll_state_of_none s v hn)
  · intro hn hw hfs
    refine ⟨onScroll_writes_le win32 s v h, ?_⟩
    have hg := onScroll_state_of_none win32 s v h hn hw hfs
    unfold onFakeScroll
    rw [if_pos hg]
    simp [countWrites]

/-- C6 witness: the four guarantees instantiated on concrete instances with
a pending grid-initiated sync, a pending fake-initiated sync, and no sync in
flight. -/
theorem scroll_sync_no_feedback_witness :
    ((onFakeScroll exampleInstEchoGrid 40).1.lastScroll = none ∧
      (onFakeScroll exampleInstEchoGrid 40).2 = []) ∧
    ((onScroll true exampleInstEchoFake 40 10).1.lastScroll = none ∧
      countWrites (onScroll true exampleInstEchoFake 40 10).2 = 0) ∧
    (countWrites (onFakeScroll exampleInstIdle 40).2 ≤ 1 ∧
      countWrites
        (onScroll true (onFakeScroll exampleInstIdle 40).1 41 10).2 = 0) ∧
    (countWrites (onScroll true exampleInstIdle 40 10).2 ≤ 1 ∧
      countWrites
        (onFakeScroll (onScroll true exampleInstIdle 40 10).1 41).2 = 0) :=
  ⟨(scroll_sync_no_feedback exampleInstEchoGrid true 40 10 41 10).1 rfl,
   (scroll_sync_no_feedback exampleInstEchoFake true 40 10 41 10).2.1
     rfl rfl rfl,
   (scroll_sync_no_feedback exampleInstIdle true 40 10 41 10).2.2.1 rfl,
   (scroll_sync_no_feedback exampleInstIdle true 40 10 41 10).2.2.2
     rfl rfl rfl⟩

/-- C7: `componentWillUnmount` releases every resource the instance holds: a
pending deferred resize callback is cancelled (and its id cleared), an
existing resize observer is disconnected, and an allocated row-id token is
released — in particular the token allocated by `componentWillMount`. -/
theorem componentWillUnmount_releases_resources (s : ListInstance) :
    (∀ tid, s.updateSizeTimeoutId = some tid →
      Effect.clearImmediateCall tid ∈ (componentWillUnmount s).2 ∧
        (componentWillUnmount s).1.updateSizeTimeoutId = none) ∧
    (s.resizeObserver = true →
      Effect.observerDisconnect ∈ (componentWillUnmount s).2) ∧
    (∀ tok, s.state.rowIdToken = some tok →
      Effect.releaseUniqueIdCall tok ∈ (componentWillUnmount s).2) ∧
    (∀ tok, Effect.releaseUniqueIdCall tok ∈
      (componentWillUnmount (componentWillMount tok s)).2) := by
  refine ⟨?_, ?_, ?_, ?_⟩
  · intro tid htid
    simp [componentWillUnmount, htid]
  · intro hobs
    cases htid : s.updateSizeTimeoutId <;>
      simp [componentWillUnmount, htid, hobs]
  · intro tok htok
    cases htid : s.updateSizeTimeoutId <;>
      simp [componentWillUnmount, htid, htok]
  · intro tok
    cases htid : s.updateSizeTimeoutId <;>
      simp [componentWillUnmount, componentWillMount, htid]

/-- C7 witness: unmounting an instance holding a pending resize callback, an
observer and a row-id token releases all three. -/
theorem componentWillUnmount_releases_resources_witness :
    (Effect.clearImmediateCall 7 ∈
        (componentWillUnmount exampleInstResources).2 ∧
      (componentWillUnmount exampleInstResources).1.updateSizeTimeoutId
        = none) ∧
    Effect.observerDisconnect ∈ (componentWillUnmount exampleInstResources).2 ∧
    Effect.releaseUniqueIdCall 11 ∈
      (componentWillUnmount exampleInstResources).2 :=
  ⟨(componentWillUnmount_releases_resources exampleInstResources).1 7 rfl,
   (componentWillUnmount_releases_resources exampleInstResources).2.1 rfl,
   (componentWillUnmount_releases_resources exampleInstResources).2.2.1
     11 rfl⟩

/-- C8: calling `focus()` before mount — no grid delegate and `selectedRow`
outside `[0, rowCount)` — is a silent no-op: the instance is unchanged and
no effect is emitted (the model is total, so no error can be raised). -/
theorem focus_before_mount_noop (s : ListInstance) (hgrid : s.grid = false)
    (hsel : ¬(0 ≤ s.props.selectedRow ∧
      s.props.selectedRow < (s.props.rowCount : Int))) :
    focus s = (s, []) := by
  unfold focus
  rw [if_neg hsel, if_neg (by simp [hgrid])]

/-- C8 witness: focusing the unmounted example instance does nothing. -/
theorem focus_before_mount_noop_witness :
    focus exampleInstUnmounted = (exampleInstUnmounted, []) :=
  focus_before_mount_noop exampleInstUnmounted rfl (by decide)

theorem foldl_add_eq_sum (f : Nat → Int) (n : Nat) :
    (List.range n).foldl (fun acc i => acc + f i) 0 =
      ∑ i in Finset.range n, f i := by
  induction n with
  | zero => simp
  | succ k ih =>
    rw [List.range_succ, List.foldl_append, ih, Finset.sum_range_succ]
    rfl

/-- C10: the fake scroll bar's inner spacer height equals the total list
height: `rowHeight * rowCount` for a fixed row height, and otherwise the sum
of `rowHeight({index: i})` over all `i` in `[0, rowCount)`. -/
theorem renderFakeScroll_spacer_height (p : ListProps) (height : Nat) :
    (∀ h, p.rowHeight = RowHeight.fixed h →
      (renderFakeScroll p height).2 = h * (p.rowCount : Int)) ∧
    (∀ f, p.rowHeight = RowHeight.perRow f →
      (renderFakeScroll p height).2 = ∑ i in Finset.range p.rowCount, f i) := by
  constructor
  · intro h hh
    simp [renderFakeScroll, totalFakeScrollHeight, hh]
  · intro f hf
    simp [renderFakeScroll, totalFakeScrollHeight, hf, foldl_add_eq_sum]

/-- C10 witness: three rows of fixed height 20 give a 60-pixel spacer. -/
theorem renderFakeScroll_spacer_height_witness :
    (renderFakeScroll { rowCount := 3, rowHeight := RowHeight.fixed 20 }
      100).2 = 20 * ((3 : Nat) : Int) :=
  (renderFakeScroll_spacer_height
    { rowCount := 3, rowHeight := RowHeight.fixed 20 } 100).1 20 rfl

end VirtualList
